import Mathlib

set_option maxRecDepth 8000

namespace Zbus

/-! Shallow embedding of the visible slice of the zbus repository:
the interface model and introspection emission exercised by
`src/zbus_macros/tests/tests.rs`, the signal matcher/decoder exercised by the
`signal_from_message` tests, and the pure structure of the `zbus_xmlgen` CLI
(`src/zbus_xmlgen/src/main.rs`).

Wire type signatures are kept in their textual form (e.g. "u", "s", "(us)",
"ay"): the claims under study never inspect signature structure, only compare
them as strings. -/

abbrev Sig := String

/-- An argument of a method or signal: optional name and a wire signature. -/
structure ArgSpec where
  name : Option String
  ty : Sig
  deriving Repr, DecidableEq

/-- Property access mode, as emitted in the `access` attribute. -/
inductive Access where
  | read
  | write
  | readwrite
  deriving Repr, DecidableEq

/-- A declared method: native (Rust) name, optional explicit rename, doc
comment lines, input args and output args. -/
structure MethodSpec where
  nativeName : String
  rename : Option String
  doc : List String
  inputs : List ArgSpec
  outputs : List ArgSpec
  deriving Repr, DecidableEq

/-- A declared signal. -/
structure SignalSpec where
  nativeName : String
  rename : Option String
  doc : List String
  args : List ArgSpec
  deriving Repr, DecidableEq

/-- A property as it appears in the built interface model. -/
structure PropertySpec where
  nativeName : String
  rename : Option String
  doc : List String
  ty : Sig
  access : Access
  deriving Repr, DecidableEq

/-- The interface model: named collection of methods, signals, properties. -/
structure InterfaceSpec where
  name : String
  methods : List MethodSpec
  signals : List SignalSpec
  properties : List PropertySpec
  deriving Repr, DecidableEq

/-- Uppercase the first character of a segment. -/
def capitalizeSeg : List Char → List Char
  | [] => []
  | c :: cs => c.toUpper :: cs

/-- Split a character list on underscores (same grouping as splitting the
string on a single-underscore separator). -/
def splitUnderscore : List Char → List (List Char)
  | [] => [[]]
  | c :: cs =>
    if c = '_' then [] :: splitUnderscore cs
    else
      match splitUnderscore cs with
      | [] => [[c]]
      | g :: gs => (c :: g) :: gs

/-- Modelled from the spec: default wire name is the PascalCase transform of
the native identifier with underscores removed (the macro implementation that
computes it is not under src/; its outputs are pinned by the test fixture
EXPECTED_XML). -/
def pascalCase (s : String) : String :=
  String.mk (List.flatten ((splitUnderscore s.data).map capitalizeSeg))

/-- Wire name of a member: the explicit rename verbatim when present,
otherwise the default PascalCase transform of the native name. -/
def wireName (rename : Option String) (native : String) : String :=
  match rename with
  | some n => n
  | none => pascalCase native

def methodWireName (m : MethodSpec) : String := wireName m.rename m.nativeName

def signalWireName (s : SignalSpec) : String := wireName s.rename s.nativeName

def propertyWireName (p : PropertySpec) : String := wireName p.rename p.nativeName

def indentStr (n : Nat) : String := String.mk (List.replicate n ' ')

/-- One rendered line of a doc comment: an empty doc line stays an empty
output line; a nonempty line gets the indentation plus one leading space. -/
def docLine (indent : Nat) (l : String) : String :=
  if l = "" then "\n" else indentStr indent ++ " " ++ l ++ "\n"

/-- Modelled from the spec: doc comments render as an XML comment block
immediately preceding the member element (macro implementation not under
src/; output pinned by EXPECTED_XML). -/
def emitDoc (indent : Nat) (doc : List String) : String :=
  match doc with
  | [] => ""
  | _ :: _ =>
    indentStr indent ++ "<!--\n" ++ String.join (doc.map (docLine indent)) ++
      indentStr indent ++ " -->\n"

def nameAttr (a : ArgSpec) : String :=
  match a.name with
  | some n => "name=\"" ++ n ++ "\" "
  | none => ""

/-- A method arg element carries a direction attribute. -/
def emitMethodArg (dir : String) (a : ArgSpec) : String :=
  "    <arg " ++ nameAttr a ++ "type=\"" ++ a.ty ++ "\" direction=\"" ++ dir
    ++ "\"/>\n"

/-- A signal arg element carries no direction attribute. -/
def emitSignalArg (a : ArgSpec) : String :=
  "    <arg " ++ nameAttr a ++ "type=\"" ++ a.ty ++ "\"/>\n"

/-- The out-arg elements of a method: one element per declared output. -/
def outArgElements (m : MethodSpec) : List String :=
  m.outputs.map (emitMethodArg "out")

def emitMethodElement (m : MethodSpec) : String :=
  "  <method name=\"" ++ methodWireName m ++ "\">\n" ++
    String.join (m.inputs.map (emitMethodArg "in")) ++
    String.join (outArgElements m) ++
    "  </method>\n"

def emitMethod (m : MethodSpec) : String :=
  emitDoc 2 m.doc ++ emitMethodElement m

def emitSignalElement (s : SignalSpec) : String :=
  "  <signal name=\"" ++ signalWireName s ++ "\">\n" ++
    String.join (s.args.map emitSignalArg) ++
    "  </signal>\n"

def emitSignal (s : SignalSpec) : String :=
  emitDoc 2 s.doc ++ emitSignalElement s

def accessText : Access → String
  | Access.read => "read"
  | Access.write => "write"
  | Access.readwrite => "readwrite"

def emitPropertyElement (p : PropertySpec) : String :=
  "  <property name=\"" ++ propertyWireName p ++ "\" type=\"" ++ p.ty ++
    "\" access=\"" ++ accessText p.access ++ "\"/>\n"

def emitProperty (p : PropertySpec) : String :=
  emitDoc 2 p.doc ++ emitPropertyElement p

/-- Modelled from the spec: deterministic serialization of an interface,
methods then signals then properties (macro implementation not under src/;
the full output for the test interface is pinned by EXPECTED_XML, see
`introspect_matches_fixture` style checks below). -/
def introspect (i : InterfaceSpec) : String :=
  "<interface name=\"" ++ i.name ++ "\">\n" ++
    String.join (i.methods.map emitMethod) ++
    String.join (i.signals.map emitSignal) ++
    String.join (i.properties.map emitProperty) ++
    "</interface>\n"

/-! Building the interface model from source-order member declarations, as
the attribute macro reads an impl block top to bottom. A property getter and
a property setter for the same property merge into one `PropertySpec`. -/

inductive MemberDecl where
  | method (m : MethodSpec)
  | signal (s : SignalSpec)
  | propGet (nativeName : String) (rename : Option String) (doc : List String)
      (ty : Sig)
  | propSet (nativeName : String) (rename : Option String) (ty : Sig)
  deriving Repr, DecidableEq

/-- The property a setter `set_foo` targets is `foo`. -/
def setterTargetName (s : String) : String :=
  if s.data.take 4 = ['s', 'e', 't', '_'] then String.mk (s.data.drop 4) else s

def combineAccess : Access → Access → Access
  | Access.read, Access.read => Access.read
  | Access.write, Access.write => Access.write
  | _, _ => Access.readwrite

/-- Insert a property into the accumulated list, merging with an existing
entry of the same wire name (access modes combine; the first nonempty doc
wins). -/
def addProperty : List PropertySpec → PropertySpec → List PropertySpec
  | [], p => [p]
  | q :: qs, p =>
    if propertyWireName q = propertyWireName p then
      { q with
        access := combineAccess q.access p.access,
        doc := if q.doc = [] then p.doc else q.doc } :: qs
    else
      q :: addProperty qs p

def emptyInterface (name : String) : InterfaceSpec := ⟨name, [], [], []⟩

def buildStep (acc : InterfaceSpec) (d : MemberDecl) : InterfaceSpec :=
  match d with
  | MemberDecl.method m => { acc with methods := acc.methods ++ [m] }
  | MemberDecl.signal s => { acc with signals := acc.signals ++ [s] }
  | MemberDecl.propGet n r doc ty =>
    { acc with properties := addProperty acc.properties ⟨n, r, doc, ty, Access.read⟩ }
  | MemberDecl.propSet n r ty =>
    { acc with
      properties := addProperty acc.properties
        ⟨setterTargetName n, r, [], ty, Access.write⟩ }

/-- Modelled from the spec: interface model construction from source
annotations, partitioning members by kind while merging getter/setter pairs. -/
def buildInterface (name : String) (decls : List MemberDecl) : InterfaceSpec :=
  List.foldl buildStep (emptyInterface name) decls

/-! The concrete interface of `test_interface` in
src/zbus_macros/tests/tests.rs, declaration by declaration in source order. -/

def noArgDecl : MethodSpec :=
  ⟨"no_arg", none, ["Testing `no_arg` documentation is reflected in XML."],
    [], []⟩

def strU32Decl : MethodSpec :=
  ⟨"str_u32", none, [], [⟨some "val", "s"⟩], [⟨none, "u"⟩]⟩

def manyOutputDecl : MethodSpec :=
  ⟨"many_output", none, [], [], [⟨none, "u"⟩, ⟨none, "s"⟩]⟩

def pairOutputDecl : MethodSpec :=
  ⟨"pair_output", none, [], [], [⟨none, "(us)"⟩]⟩

def checkVecDecl : MethodSpec :=
  ⟨"check_vec", some "CheckVEC", [], [], [⟨none, "ay"⟩]⟩

def signalDecl : SignalSpec :=
  ⟨"signal", none, ["Emit a signal."], [⟨some "arg", "y"⟩, ⟨some "other", "s"⟩]⟩

def testDecls : List MemberDecl :=
  [MemberDecl.method noArgDecl,
   MemberDecl.method strU32Decl,
   MemberDecl.method manyOutputDecl,
   MemberDecl.method pairOutputDecl,
   MemberDecl.propGet "my_custom_property" none [] "u",
   MemberDecl.propSet "set_my_custom_property" none "u",
   MemberDecl.method checkVecDecl,
   MemberDecl.propGet "my_prop" none
     ["Testing my_prop documentation is reflected in XML.", "", "And that too."]
     "q",
   MemberDecl.propSet "set_my_prop" none "q",
   MemberDecl.signal signalDecl]

def testInterface : InterfaceSpec :=
  buildInterface "org.freedesktop.zbus.Test" testDecls

/-- The EXPECTED_XML fixture of src/zbus_macros/tests/tests.rs, byte for
byte. -/
def expectedXml : String := String.join
  ["<interface name=\"org.freedesktop.zbus.Test\">\n",
   "  <!--\n",
   "   Testing `no_arg` documentation is reflected in XML.\n",
   "   -->\n",
   "  <method name=\"NoArg\">\n",
   "  </method>\n",
   "  <method name=\"StrU32\">\n",
   "    <arg name=\"val\" type=\"s\" direction=\"in\"/>\n",
   "    <arg type=\"u\" direction=\"out\"/>\n",
   "  </method>\n",
   "  <method name=\"ManyOutput\">\n",
   "    <arg type=\"u\" direction=\"out\"/>\n",
   "    <arg type=\"s\" direction=\"out\"/>\n",
   "  </method>\n",
   "  <method name=\"PairOutput\">\n",
   "    <arg type=\"(us)\" direction=\"out\"/>\n",
   "  </method>\n",
   "  <method name=\"CheckVEC\">\n",
   "    <arg type=\"ay\" direction=\"out\"/>\n",
   "  </method>\n",
   "  <!--\n",
   "   Emit a signal.\n",
   "   -->\n",
   "  <signal name=\"Signal\">\n",
   "    <arg name=\"arg\" type=\"y\"/>\n",
   "    <arg name=\"other\" type=\"s\"/>\n",
   "  </signal>\n",
   "  <property name=\"MyCustomProperty\" type=\"u\" access=\"readwrite\"/>\n",
   "  <!--\n",
   "   Testing my_prop documentation is reflected in XML.\n",
   "\n",
   "   And that too.\n",
   "   -->\n",
   "  <property name=\"MyProp\" type=\"q\" access=\"readwrite\"/>\n",
   "</interface>\n"]

/-! Signal matcher/decoder, exercised by the `signal_from_message` tests. -/

inductive MsgType where
  | methodCall
  | methodReturn
  | errorReply
  | signal
  deriving Repr, DecidableEq

/-- An inbound message: identity header fields plus a body carrying its
actual signature and an opaque payload. -/
structure Message where
  msgType : MsgType
  path : String
  iface : String
  member : String
  bodySig : Sig
  body : String
  deriving Repr, DecidableEq

/-- The identity of a declared signal a subscription matches against:
interface name, member (wire) name, optionally a bound object path, and the
declared argument signature used only at decode time. -/
structure SignalSub where
  iface : String
  member : String
  path : Option String
  argSig : Sig
  deriving Repr, DecidableEq

/-- A message that passed the structural match; the body is still undecoded. -/
structure MatchedSignal where
  msg : Message
  deriving Repr, DecidableEq

/-- Modelled from the spec: structural matching compares message type,
interface name, member name and, when the subscription binds one, the object
path; it never reads the body (generated from_message code is not under
src/, only its tests). -/
def identityMatches (s : SignalSub) (m : Message) : Bool :=
  m.msgType = MsgType.signal && m.iface = s.iface && m.member = s.member &&
    (match s.path with
     | none => true
     | some p => m.path = p)

def fromMessage (s : SignalSub) (m : Message) : Option MatchedSignal :=
  if identityMatches s m then some ⟨m⟩ else none

inductive SignalError where
  | decodeFailed (expected actual : Sig)
  deriving Repr, DecidableEq

/-- Modelled from the spec: deferred decoding unmarshals the body against the
declared argument signature and fails with a decode error when the actual
body signature disagrees. -/
def signalArgs (s : SignalSub) (ms : MatchedSignal) : Except SignalError String :=
  if ms.msg.bodySig = s.argSig then Except.ok ms.msg.body
  else Except.error (SignalError.decodeFailed s.argSig ms.msg.bodySig)

/-- The SignalU8 declaration of the signal_from_message test module. -/
def signalU8Sub : SignalSub :=
  ⟨"org.freedesktop.zbus_macros.Test", "SignalU8", none, "y"⟩

/-- The SignalString declaration of the signal_from_message test module. -/
def signalStringSub : SignalSub :=
  ⟨"org.freedesktop.zbus_macros.Test", "SignalString", none, "s"⟩

/-- The message built in the wrong_data test: identity of SignalU8, but a
string body. -/
def wrongDataMsg : Message :=
  ⟨MsgType.signal, "/org/freedesktop/zbus_macros/test",
    "org.freedesktop.zbus_macros.Test", "SignalU8", "s", "test"⟩

/-! Client proxy property bindings (change-notification policy). -/

/-- The emits_changed_signal policy of a property. -/
inductive ChangeNotify where
  | always
  | invalidates
  | const
  | never
  deriving Repr, DecidableEq

/-- A property as declared on a proxy trait. -/
structure ProxyPropertySpec where
  nativeName : String
  rename : Option String
  ty : Sig
  access : Access
  changeNotify : ChangeNotify
  deriving Repr, DecidableEq

inductive ProxyBinding where
  | getter (wire : String)
  | setter (wire : String)
  deriving Repr, DecidableEq

/-- Modelled from the spec: the generated proxy exposes a getter for every
property, and a setter only when the access mode includes Write and the
property is not declared with the Const change-notification policy (proxy
generation code is not under src/; the test only declares a_const_property). -/
def proxyPropertyBindings (p : ProxyPropertySpec) : List ProxyBinding :=
  ProxyBinding.getter (wireName p.rename p.nativeName) ::
    (if (p.access = Access.write ∨ p.access = Access.readwrite) ∧
        p.changeNotify ≠ ChangeNotify.const then
      [ProxyBinding.setter (wireName p.rename p.nativeName)]
    else [])

/-! The zbus_xmlgen CLI (src/zbus_xmlgen/src/main.rs): reserved-interface
partitioning and the argument-dispatch / error-propagation structure. -/

structure XInterface where
  name : String
  deriving Repr, DecidableEq

structure XNode where
  interfaces : List XInterface
  deriving Repr, DecidableEq

/-- The reserved interface name start, `fdo_iface_prefix` in main.rs. -/
def fdoIfaceStart : String := "org.freedesktop.DBus"

/-- Whether an interface is a standard (reserved-name) one:
`i.name().starts_with(fdo_iface_prefix)` in main.rs. -/
def isFdoIface (i : XInterface) : Bool :=
  fdoIfaceStart.data.isPrefixOf i.name.data

/-- Everything after the last dot: main.rs takes the slice starting right
after `rfind` of the dot (the name is known to contain one there). -/
def afterLastDot (cs : List Char) : List Char :=
  (cs.reverse.takeWhile (fun c => c ≠ '.')).reverse

def lastSegment (s : String) : String := String.mk (afterLastDot s.data)

/-- The header line referencing the pre-existing standard proxy for a
filtered-out interface, as written by main.rs. -/
def fdoRefLine (i : XInterface) : String :=
  "//! * [`zbus::fdo::" ++ lastSegment i.name ++ "Proxy`]\n"

/-- Modelled from the spec: one proxy definition block per needed interface;
its content (GenTrait, not under src/) is out of scope for the claims and is
represented by a block naming its interface. -/
def genTraitBlock (i : XInterface) : String :=
  "proxy definition block for " ++ i.name ++ "\n"

/-- The `partition` call of main.rs, preserving relative order on both
sides like Iterator::partition. -/
def partitionIfaces (n : XNode) : List XInterface × List XInterface :=
  n.interfaces.partition isFdoIface

/-- The interface-dependent parts of the generated output stream: the names
listed in the doc header, the standard-proxy reference lines, and the proxy
definition blocks. -/
structure GenOutput where
  headerIfaces : List String
  fdoRefs : List String
  proxyBlocks : List String
  deriving Repr, DecidableEq

def xmlgenOutput (n : XNode) : GenOutput :=
  let p := partitionIfaces n
  { headerIfaces := p.2.map XInterface.name,
    fdoRefs := p.1.map fdoRefLine,
    proxyBlocks := p.2.map genTraitBlock }

/-- How a CLI invocation ends, apart from error termination: printing usage
(exit status zero) or producing the generated output. -/
inductive CliOutcome where
  | usage
  | generated (g : GenOutput)
  deriving Repr, DecidableEq

/-- The fallible external collaborators of main.rs, passed explicitly: file
opening plus XML parse, bus connections, name/path validation, and the
introspection call. An `Except.error` models any termination with a nonzero
exit status and a diagnostic (both an Err return from main and a panic from
an expect). -/
structure CliWorld where
  openFile : String → Except String XNode
  connectSystem : Except String Unit
  connectSession : Except String Unit
  connectAddress : String → Except String Unit
  parseBusName : String → Except String String
  parseObjectPath : String → Except String String
  introspectCall : String → String → Except String XNode

/-- The argument-dispatch structure of main.rs: `argv` holds the arguments
after the program name (`args().nth(1)` onward). Each arm performs its
fallible steps in the source's order; the header text written on success is
cosmetic and omitted. -/
def cliMain (argv : List String) (w : CliWorld) : Except String CliOutcome :=
  match argv[0]? with
  | none => Except.ok CliOutcome.usage
  | some a =>
    if a = "--system" ∨ a = "--session" then
      match (if a = "--system" then w.connectSystem else w.connectSession) with
      | Except.error e => Except.error e
      | Except.ok _ =>
        match argv[1]? with
        | none => Except.error "Missing param for service"
        | some svcText =>
          match w.parseBusName svcText with
          | Except.error e => Except.error e
          | Except.ok svc =>
            match argv[2]? with
            | none => Except.error "Missing param for object path"
            | some pathText =>
              match w.parseObjectPath pathText with
              | Except.error e => Except.error e
              | Except.ok path =>
                match w.introspectCall svc path with
                | Except.error e => Except.error e
                | Except.ok node =>
                  Except.ok (CliOutcome.generated (xmlgenOutput node))
    else if a = "--address" then
      match argv[1]? with
      | none => Except.error "Missing param for address path"
      | some addr =>
        match argv[2]? with
        | none => Except.error "Missing param for service"
        | some svcText =>
          match w.parseBusName svcText with
          | Except.error e => Except.error e
          | Except.ok svc =>
            match argv[3]? with
            | none => Except.error "Missing param for object path"
            | some pathText =>
              match w.parseObjectPath pathText with
              | Except.error e => Except.error e
              | Except.ok path =>
                match w.connectAddress addr with
                | Except.error e => Except.error e
                | Except.ok _ =>
                  match w.introspectCall svc path with
                  | Except.error e => Except.error e
                  | Except.ok node =>
                    Except.ok (CliOutcome.generated (xmlgenOutput node))
    else
      match w.openFile a with
      | Except.error e => Except.error e
      | Except.ok node => Except.ok (CliOutcome.generated (xmlgenOutput node))

/-! Projections of a declaration list by member kind, used to characterize
what `buildInterface` accumulates. -/

def getMethodDecl : MemberDecl → Option MethodSpec
  | MemberDecl.method m => some m
  | _ => none

def getSignalDecl : MemberDecl → Option SignalSpec
  | MemberDecl.signal s => some s
  | _ => none

def declMethods (decls : List MemberDecl) : List MethodSpec :=
  decls.filterMap getMethodDecl

def declSignals (decls : List MemberDecl) : List SignalSpec :=
  decls.filterMap getSignalDecl

/-- The effect of one declaration on the accumulated property list. -/
def propStep (ps : List PropertySpec) (d : MemberDecl) : List PropertySpec :=
  match d with
  | MemberDecl.propGet n r doc ty => addProperty ps ⟨n, r, doc, ty, Access.read⟩
  | MemberDecl.propSet n r ty =>
    addProperty ps ⟨setterTargetName n, r, [], ty, Access.write⟩
  | _ => ps

def declProperties (decls : List MemberDecl) : List PropertySpec :=
  decls.foldl propStep []

/-- Wire names of an accumulated property list. -/
def wireNamesOf (ps : List PropertySpec) : List String :=
  ps.map propertyWireName

/-- The merged my_prop property of the test interface: getter doc kept,
access upgraded to readwrite by the setter declaration. -/
def myPropMerged : PropertySpec :=
  ⟨"my_prop", none,
    ["Testing my_prop documentation is reflected in XML.", "", "And that too."],
    "q", Access.readwrite⟩

/-- The a_const_property declaration of the proxy test, as a proxy property
spec with the Const change-notification policy (and write access granted, to
show the Const policy alone suppresses the setter). -/
def aConstPropertySpec : ProxyPropertySpec :=
  ⟨"a_const_property", none, "as", Access.readwrite, ChangeNotify.const⟩

/-- A concrete collaborator environment for exercising the CLI dispatch:
file opening always fails, connections succeed, exactly one service name and
one object path validate, and the introspection call fails. -/
def sampleWorld : CliWorld :=
  { openFile := fun _ => Except.error "No such file or directory",
    connectSystem := Except.ok (),
    connectSession := Except.ok (),
    connectAddress := fun _ => Except.ok (),
    parseBusName := fun s =>
      if s = "org.good.Service" then Except.ok s else Except.error "invalid bus name",
    parseObjectPath := fun s =>
      if s = "/good/path" then Except.ok s else Except.error "invalid object path",
    introspectCall := fun _ _ => Except.error "protocol error" }

/-- A two-interface introspection document: one reserved-name interface and
one ordinary one. -/
def sampleNode : XNode :=
  ⟨[⟨"org.freedesktop.DBus.Introspectable"⟩, ⟨"com.example.Foo"⟩]⟩

lemma foldl_buildStep_eq (decls : List MemberDecl) (acc : InterfaceSpec) :
    List.foldl buildStep acc decls =
      ⟨acc.name, acc.methods ++ declMethods decls, acc.signals ++ declSignals decls,
        List.foldl propStep acc.properties decls⟩ := by
  induction decls generalizing acc with
  | nil => simp [declMethods, declSignals]
  | cons d ds ih =>
    cases d with
    | method m =>
      simp [List.foldl_cons, ih, buildStep, declMethods, declSignals, propStep,
        getMethodDecl, getSignalDecl, List.filterMap_cons]
    | signal s =>
      simp [List.foldl_cons, ih, buildStep, declMethods, declSignals, propStep,
        getMethodDecl, getSignalDecl, List.filterMap_cons]
    | propGet n r doc ty =>
      simp [List.foldl_cons, ih, buildStep, declMethods, declSignals, propStep,
        getMethodDecl, getSignalDecl, List.filterMap_cons]
    | propSet n r ty =>
      simp [List.foldl_cons, ih, buildStep, declMethods, declSignals, propStep,
        getMethodDecl, getSignalDecl, List.filterMap_cons]

lemma buildInterface_eq (name : String) (decls : List MemberDecl) :
    buildInterface name decls =
      ⟨name, declMethods decls, declSignals decls, declProperties decls⟩ := by
  simp [buildInterface, foldl_buildStep_eq, emptyInterface, declProperties]

/-! Wire names of the accumulated property list: `addProperty` never creates
a second entry with an existing wire name. -/

lemma wireNamesOf_cons (q : PropertySpec) (qs : List PropertySpec) :
    wireNamesOf (q :: qs) = propertyWireName q :: wireNamesOf qs := rfl

lemma wireNamesOf_addProperty (ps : List PropertySpec) (p : PropertySpec) :
    wireNamesOf (addProperty ps p) =
      if propertyWireName p ∈ wireNamesOf ps then wireNamesOf ps
      else wireNamesOf ps ++ [propertyWireName p] := by
  induction ps with
  | nil => simp [wireNamesOf, addProperty]
  | cons q qs ih =>
    by_cases hq : propertyWireName q = propertyWireName p
    · have hmerge :
          addProperty (q :: qs) p =
            { q with
              access := combineAccess q.access p.access,
              doc := if q.doc = [] then p.doc else q.doc } :: qs := by
        simp [addProperty, hq]
      rw [hmerge, wireNamesOf_cons, wireNamesOf_cons]
      have hname :
          propertyWireName
            { q with
              access := combineAccess q.access p.access,
              doc := if q.doc = [] then p.doc else q.doc } =
            propertyWireName q := rfl
      rw [hname, if_pos (by rw [← hq]; exact List.mem_cons_self _ _)]
    · have hskip : addProperty (q :: qs) p = q :: addProperty qs p := by
        simp [addProperty, hq]
      rw [hskip, wireNamesOf_cons, wireNamesOf_cons, ih]
      have hmem : (propertyWireName p ∈ propertyWireName q :: wireNamesOf qs) ↔
          propertyWireName p ∈ wireNamesOf qs := by
        constructor
        · intro h
          rcases List.mem_cons.mp h with h | h
          · exact absurd h.symm hq
          · exact h
        · exact fun h => List.mem_cons_of_mem _ h
      by_cases hin : propertyWireName p ∈ wireNamesOf qs
      · rw [if_pos hin, if_pos (hmem.mpr hin)]
      · rw [if_neg hin, if_neg (fun h => hin (hmem.mp h)), List.cons_append]

lemma nodup_wireNamesOf_addProperty (ps : List PropertySpec) (p : PropertySpec)
    (h : (wireNamesOf ps).Nodup) : (wireNamesOf (addProperty ps p)).Nodup := by
  rw [wireNamesOf_addProperty]
  by_cases hin : propertyWireName p ∈ wireNamesOf ps
  · rwa [if_pos hin]
  · rw [if_neg hin]
    simp only [List.nodup_append, List.nodup_cons, List.nodup_nil]
    exact ⟨h, ⟨by simp, trivial⟩, by
      intro x hx hx1
      rcases List.mem_singleton.mp hx1 with rfl
      exact hin hx⟩

lemma nodup_wireNamesOf_foldl (decls : List MemberDecl) (ps : List PropertySpec)
    (h : (wireNamesOf ps).Nodup) :
    (wireNamesOf (List.foldl propStep ps decls)).Nodup := by
  induction decls generalizing ps with
  | nil => simpa using h
  | cons d ds ih =>
    cases d with
    | method m => exact ih ps h
    | signal s => exact ih ps h
    | propGet n r doc ty =>
      exact ih _ (nodup_wireNamesOf_addProperty ps _ h)
    | propSet n r ty =>
      exact ih _ (nodup_wireNamesOf_addProperty ps _ h)

/-- C1 counterexample: the claim fails on the code. The method many_output
declares exactly the two-element output sequence (u32, string) — outputs
[u, s] — yet the introspection pinned by the EXPECTED_XML fixture renders it
as two separate out arg elements of types u and s, not as the single out arg
of struct signature (us) the claim requires. -/
theorem C1_counterexample :
    manyOutputDecl.outputs = [⟨none, "u"⟩, ⟨none, "s"⟩] ∧
    outArgElements manyOutputDecl =
      ["    <arg type=\"u\" direction=\"out\"/>\n",
       "    <arg type=\"s\" direction=\"out\"/>\n"] ∧
    outArgElements manyOutputDecl ≠
      ["    <arg type=\"(us)\" direction=\"out\"/>\n"] := by
  exact ⟨rfl, by decide, by decide⟩

/-- C1 amended: a method declared with the two separate outputs u32 and
string (many_output) introspects as two separate out args of types u and s;
only a method whose single declared output is the struct (u32, string)
(pair_output, declared return ((u32, String),)) introspects as the single
out arg of struct signature (us). In general every declared output yields
exactly one out arg element, and the whole test interface introspects to the
EXPECTED_XML fixture byte for byte. -/
theorem C1_amended_out_args :
    introspect testInterface = expectedXml ∧
    outArgElements manyOutputDecl =
      ["    <arg type=\"u\" direction=\"out\"/>\n",
       "    <arg type=\"s\" direction=\"out\"/>\n"] ∧
    outArgElements pairOutputDecl =
      ["    <arg type=\"(us)\" direction=\"out\"/>\n"] ∧
    ∀ m : MethodSpec, (outArgElements m).length = m.outputs.length := by
  refine ⟨by decide, by decide, by decide, fun m => ?_⟩
  simp [outArgElements]

/-- C2: every method, signal, or property declared without an explicit
rename appears in the emitted introspection under the PascalCase transform
of its native identifier with underscores removed; concretely str_u32
introspects as method StrU32 with one in string arg and one out u32 arg. -/
theorem C2_default_pascal_case_names :
    (∀ m : MethodSpec, m.rename = none →
      emitMethodElement m =
        "  <method name=\"" ++ pascalCase m.nativeName ++ "\">\n" ++
          String.join (m.inputs.map (emitMethodArg "in")) ++
          String.join (outArgElements m) ++ "  </method>\n") ∧
    (∀ s : SignalSpec, s.rename = none →
      emitSignalElement s =
        "  <signal name=\"" ++ pascalCase s.nativeName ++ "\">\n" ++
          String.join (s.args.map emitSignalArg) ++ "  </signal>\n") ∧
    (∀ p : PropertySpec, p.rename = none →
      emitPropertyElement p =
        "  <property name=\"" ++ pascalCase p.nativeName ++ "\" type=\"" ++
          p.ty ++ "\" access=\"" ++ accessText p.access ++ "\"/>\n") ∧
    pascalCase "str_u32" = "StrU32" ∧
    emitMethod strU32Decl = String.join
      ["  <method name=\"StrU32\">\n",
       "    <arg name=\"val\" type=\"s\" direction=\"in\"/>\n",
       "    <arg type=\"u\" direction=\"out\"/>\n",
       "  </method>\n"] := by
  refine ⟨?_, ?_, ?_, by decide, by decide⟩
  · intro m h
    simp [emitMethodElement, methodWireName, wireName, h]
  · intro s h
    simp [emitSignalElement, signalWireName, wireName, h]
  · intro p h
    simp [emitPropertyElement, propertyWireName, wireName, h]

/-- C2 witness: the general statement applied to the concrete str_u32
declaration of the test interface. -/
theorem C2_default_pascal_case_names_witness :
    strU32Decl.rename = none ∧
    emitMethodElement strU32Decl =
      "  <method name=\"" ++ pascalCase strU32Decl.nativeName ++ "\">\n" ++
        String.join (strU32Decl.inputs.map (emitMethodArg "in")) ++
        String.join (outArgElements strU32Decl) ++ "  </method>\n" :=
  ⟨rfl, C2_default_pascal_case_names.1 strU32Decl rfl⟩

/-- C4: a member carrying an explicit rename is emitted under the override
name verbatim, not under the default PascalCase transform; concretely
check_renaming renamed CheckRENAMING keeps CheckRENAMING (the default would
be CheckRenaming) and check_vec renamed CheckVEC introspects as CheckVEC
(the default would be CheckVec). -/
theorem C4_rename_verbatim :
    (∀ (m : MethodSpec) (s : String), m.rename = some s →
      emitMethodElement m =
        "  <method name=\"" ++ s ++ "\">\n" ++
          String.join (m.inputs.map (emitMethodArg "in")) ++
          String.join (outArgElements m) ++ "  </method>\n") ∧
    (∀ (sg : SignalSpec) (s : String), sg.rename = some s →
      emitSignalElement sg =
        "  <signal name=\"" ++ s ++ "\">\n" ++
          String.join (sg.args.map emitSignalArg) ++ "  </signal>\n") ∧
    (∀ (p : PropertySpec) (s : String), p.rename = some s →
      emitPropertyElement p =
        "  <property name=\"" ++ s ++ "\" type=\"" ++ p.ty ++
          "\" access=\"" ++ accessText p.access ++ "\"/>\n") ∧
    wireName (some "CheckRENAMING") "check_renaming" = "CheckRENAMING" ∧
    wireName (some "CheckRENAMING") "check_renaming" ≠ pascalCase "check_renaming" ∧
    emitMethodElement checkVecDecl = String.join
      ["  <method name=\"CheckVEC\">\n",
       "    <arg type=\"ay\" direction=\"out\"/>\n",
       "  </method>\n"] ∧
    pascalCase "check_vec" = "CheckVec" := by
  refine ⟨?_, ?_, ?_, by decide, by decide, by decide, by decide⟩
  · intro m s h
    simp [emitMethodElement, methodWireName, wireName, h]
  · intro sg s h
    simp [emitSignalElement, signalWireName, wireName, h]
  · intro p s h
    simp [emitPropertyElement, propertyWireName, wireName, h]

/-- C4 witness: the general statement applied to the concrete check_vec
declaration, whose rename is CheckVEC. -/
theorem C4_rename_verbatim_witness :
    checkVecDecl.rename = some "CheckVEC" ∧
    emitMethodElement checkVecDecl =
      "  <method name=\"CheckVEC\">\n" ++
        String.join (checkVecDecl.inputs.map (emitMethodArg "in")) ++
        String.join (outArgElements checkVecDecl) ++ "  </method>\n" :=
  ⟨rfl, C4_rename_verbatim.1 checkVecDecl "CheckVEC" rfl⟩

/-- C5: introspection is a function of the interface spec (deterministic)
and, for any source declaration order, emits all methods first, then all
signals, then all properties, each group in declaration order; concretely
the test interface interleaves property declarations (index 4/5) among
methods (index 6) and still introspects to the EXPECTED_XML fixture with the
properties last. -/
theorem C5_members_grouped_by_kind :
    (∀ (name : String) (decls : List MemberDecl),
      introspect (buildInterface name decls) =
        "<interface name=\"" ++ name ++ "\">\n" ++
          String.join ((declMethods decls).map emitMethod) ++
          String.join ((declSignals decls).map emitSignal) ++
          String.join ((declProperties decls).map emitProperty) ++
          "</interface>\n") ∧
    testDecls[4]? = some (MemberDecl.propGet "my_custom_property" none [] "u") ∧
    testDecls[6]? = some (MemberDecl.method checkVecDecl) ∧
    testDecls[9]? = some (MemberDecl.signal signalDecl) ∧
    introspect testInterface = expectedXml := by
  refine ⟨?_, by decide, by decide, by decide, by decide⟩
  intro name decls
  rw [buildInterface_eq]
  rfl

/-- C7: a member's doc comment is rendered as an XML comment block placed
immediately before the member's element, one rendered line per original doc
line in order, nonempty lines carrying the indentation plus a single leading
space (empty doc lines stay empty); concretely the merged my_prop property
renders its two-paragraph doc exactly as in the EXPECTED_XML fixture. -/
theorem C7_doc_comment_block :
    (∀ (ind : Nat) (l : String), l ≠ "" →
      docLine ind l = indentStr ind ++ " " ++ l ++ "\n") ∧
    docLine 2 "" = "\n" ∧
    (∀ (ind : Nat) (d : List String), d ≠ [] →
      emitDoc ind d =
        indentStr ind ++ "<!--\n" ++ String.join (d.map (docLine ind)) ++
          indentStr ind ++ " -->\n") ∧
    (∀ m : MethodSpec, emitMethod m = emitDoc 2 m.doc ++ emitMethodElement m) ∧
    (∀ s : SignalSpec, emitSignal s = emitDoc 2 s.doc ++ emitSignalElement s) ∧
    (∀ p : PropertySpec, emitProperty p = emitDoc 2 p.doc ++ emitPropertyElement p) ∧
    testInterface.properties[1]? = some myPropMerged ∧
    emitProperty myPropMerged = String.join
      ["  <!--\n",
       "   Testing my_prop documentation is reflected in XML.\n",
       "\n",
       "   And that too.\n",
       "   -->\n",
       "  <property name=\"MyProp\" type=\"q\" access=\"readwrite\"/>\n"] := by
  refine ⟨?_, by decide, ?_, fun m => rfl, fun s => rfl, fun p => rfl,
    by decide, by decide⟩
  · intro ind l h
    simp [docLine, h]
  · intro ind d h
    cases d with
    | nil => exact absurd rfl h
    | cons a as => rfl

/-- C7 witness: the line and block shapes applied to the concrete my_prop
doc comment of the test interface. -/
theorem C7_doc_comment_block_witness :
    docLine 2 "And that too." = indentStr 2 ++ " " ++ "And that too." ++ "\n" ∧
    emitDoc 2 ["Emit a signal."] =
      indentStr 2 ++ "<!--\n" ++
        String.join (["Emit a signal."].map (docLine 2)) ++
        indentStr 2 ++ " -->\n" :=
  ⟨C7_doc_comment_block.1 2 "And that too." (by decide),
   C7_doc_comment_block.2.2.1 2 ["Emit a signal."] (by decide)⟩

/-- C10: a getter declaration and a setter declaration for the same property
name build a single property entry with access readwrite (never two entries:
wire names in a built interface's property list are pairwise distinct);
concretely the test interface's getter/setter pairs my_custom_property and
my_prop each produce exactly one readwrite property element. -/
theorem C10_getter_setter_merge :
    (∀ (iname n : String) (r : Option String) (doc : List String) (ty : Sig)
      (sname : String), setterTargetName sname = n →
      (buildInterface iname
          [MemberDecl.propGet n r doc ty, MemberDecl.propSet sname r ty]).properties =
        [⟨n, r, doc, ty, Access.readwrite⟩]) ∧
    (∀ (name : String) (decls : List MemberDecl),
      (wireNamesOf (buildInterface name decls).properties).Nodup) ∧
    testInterface.properties =
      [⟨"my_custom_property", none, [], "u", Access.readwrite⟩, myPropMerged] := by
  refine ⟨?_, ?_, by decide⟩
  · intro iname n r doc ty sname h
    subst h
    by_cases hd : doc = [] <;>
      simp [buildInterface, buildStep, emptyInterface, addProperty,
        propertyWireName, wireName, combineAccess, hd]
  · intro name decls
    rw [buildInterface_eq]
    exact nodup_wireNamesOf_foldl decls [] (by simp [wireNamesOf])

/-- C10 witness: the merge statement applied to the concrete my_prop
getter/setter pair of the test interface. -/
theorem C10_getter_setter_merge_witness :
    setterTargetName "set_my_prop" = "my_prop" ∧
    (buildInterface "org.freedesktop.zbus.Test"
        [MemberDecl.propGet "my_prop" none myPropMerged.doc "q",
         MemberDecl.propSet "set_my_prop" none "q"]).properties =
      [⟨"my_prop", none, myPropMerged.doc, "q", Access.readwrite⟩] :=
  ⟨by decide,
   C10_getter_setter_merge.1 "org.freedesktop.zbus.Test" "my_prop" none
     myPropMerged.doc "q" "set_my_prop" (by decide)⟩

/-- C3: signal matching compares only the identity fields (message type,
interface, member, bound path) and never the body — a message matching a
declared signal's identity is accepted by from_message whatever its body
carries, and only the deferred argument decoding fails, with a decode error,
when the body signature differs from the declared one; a message with a
different member name is not matched at all. -/
theorem C3_match_identity_decode_deferred :
    (∀ (sub : SignalSub) (m : Message), identityMatches sub m = true →
      fromMessage sub m = some ⟨m⟩) ∧
    (∀ (sub : SignalSub) (m : Message), identityMatches sub m = true →
      m.bodySig ≠ sub.argSig →
      signalArgs sub ⟨m⟩ =
        Except.error (SignalError.decodeFailed sub.argSig m.bodySig)) ∧
    (∀ (sub : SignalSub) (m : Message), m.member ≠ sub.member →
      fromMessage sub m = none) ∧
    (∀ (sub : SignalSub) (m : Message) (sig : Sig) (body : String),
      (fromMessage sub { m with bodySig := sig, body := body }).isSome =
        (fromMessage sub m).isSome) := by
  refine ⟨?_, ?_, ?_, ?_⟩
  · intro sub m h
    simp [fromMessage, h]
  · intro sub m _ hne
    simp [signalArgs, hne]
  · intro sub m h
    simp [fromMessage, identityMatches, h]
  · intro sub m sig body
    have h : identityMatches sub { m with bodySig := sig, body := body } =
        identityMatches sub m := rfl
    unfold fromMessage
    rw [h]
    cases hc : identityMatches sub m <;> simp [hc]

/-- C3 witness: the wrong_data test scenario — the message with SignalU8
identity but a string body is matched by SignalU8, its argument decoding
fails, and it is not matched by SignalString (different member). -/
theorem C3_match_identity_decode_deferred_witness :
    fromMessage signalU8Sub wrongDataMsg = some ⟨wrongDataMsg⟩ ∧
    signalArgs signalU8Sub ⟨wrongDataMsg⟩ =
      Except.error (SignalError.decodeFailed "y" "s") ∧
    fromMessage signalStringSub wrongDataMsg = none :=
  ⟨C3_match_identity_decode_deferred.1 signalU8Sub wrongDataMsg (by decide),
   C3_match_identity_decode_deferred.2.1 signalU8Sub wrongDataMsg (by decide)
     (by decide),
   C3_match_identity_decode_deferred.2.2.1 signalStringSub wrongDataMsg
     (by decide)⟩

/-- C8: a property declared with the Const change-notification policy gets
no setter binding in the generated proxy — its bindings are exactly the
getter, whatever its access mode. -/
theorem C8_const_property_no_setter :
    ∀ p : ProxyPropertySpec, p.changeNotify = ChangeNotify.const →
      proxyPropertyBindings p =
        [ProxyBinding.getter (wireName p.rename p.nativeName)] ∧
      ∀ w : String, ProxyBinding.setter w ∉ proxyPropertyBindings p := by
  intro p h
  have hb : proxyPropertyBindings p =
      [ProxyBinding.getter (wireName p.rename p.nativeName)] := by
    simp [proxyPropertyBindings, h]
  refine ⟨hb, fun w hw => ?_⟩
  rw [hb] at hw
  simp at hw

/-- C8 witness: the statement applied to a_const_property (with write access
granted, to show the Const policy alone suppresses the setter). -/
theorem C8_const_property_no_setter_witness :
    aConstPropertySpec.changeNotify = ChangeNotify.const ∧
    proxyPropertyBindings aConstPropertySpec =
      [ProxyBinding.getter
        (wireName aConstPropertySpec.rename aConstPropertySpec.nativeName)] :=
  ⟨rfl, (C8_const_property_no_setter aConstPropertySpec rfl).1⟩

/-- C6: interfaces whose name starts with the reserved org.freedesktop.DBus
start are partitioned out of the needed set — a proxy definition block is
generated exactly for the non-reserved interfaces, while each reserved one
yields a header line referencing the pre-existing standard proxy named after
the last dot-separated segment of its name; concretely a document with the
standard Introspectable interface and com.example.Foo generates one block
for Foo and the IntrospectableProxy reference. -/
theorem C6_fdo_interfaces_filtered :
    (∀ n : XNode,
      (xmlgenOutput n).proxyBlocks =
        (n.interfaces.filter (fun i => !(isFdoIface i))).map genTraitBlock ∧
      (xmlgenOutput n).fdoRefs =
        (n.interfaces.filter isFdoIface).map fdoRefLine) ∧
    lastSegment "org.freedesktop.DBus.Introspectable" = "Introspectable" ∧
    xmlgenOutput sampleNode =
      ⟨["com.example.Foo"],
       ["//! * [`zbus::fdo::IntrospectableProxy`]\n"],
       [genTraitBlock ⟨"com.example.Foo"⟩]⟩ := by
  refine ⟨?_, by decide, by decide⟩
  intro n
  constructor <;>
    simp [xmlgenOutput, partitionIfaces, List.partition_eq_filter_filter,
      Function.comp_def]

/-- C9: invoked with no arguments the CLI prints usage and terminates
successfully; a file arm whose file fails to open, or a bus arm whose
service name, object path, or introspection call fails, terminates with
that diagnostic as an error (nonzero exit status). -/
theorem C9_cli_exit_behavior :
    ∀ w : CliWorld,
      cliMain [] w = Except.ok CliOutcome.usage ∧
      (∀ p e, p ≠ "--system" → p ≠ "--session" → p ≠ "--address" →
        w.openFile p = Except.error e → cliMain [p] w = Except.error e) ∧
      (∀ svc path e, w.connectSession = Except.ok () →
        w.parseBusName svc = Except.error e →
        cliMain ["--session", svc, path] w = Except.error e) ∧
      (∀ svc path e s2, w.connectSession = Except.ok () →
        w.parseBusName svc = Except.ok s2 →
        w.parseObjectPath path = Except.error e →
        cliMain ["--session", svc, path] w = Except.error e) ∧
      (∀ svc path e s2 p2, w.connectSession = Except.ok () →
        w.parseBusName svc = Except.ok s2 →
        w.parseObjectPath path = Except.ok p2 →
        w.introspectCall s2 p2 = Except.error e →
        cliMain ["--session", svc, path] w = Except.error e) := by
  intro w
  refine ⟨rfl, ?_, ?_, ?_, ?_⟩
  · intro p e h1 h2 h3 h4
    simp [cliMain, h1, h2, h3, h4]
  · intro svc path e hc hb
    simp [cliMain, hc, hb]
  · intro svc path e s2 hc hb hp
    simp [cliMain, hc, hb, hp]
  · intro svc path e s2 p2 hc hb hp hi
    simp [cliMain, hc, hb, hp, hi]

/-- C9 witness: the statement applied to a concrete collaborator
environment at concrete argument vectors — no arguments, an unopenable
file, a bad service name, a bad object path, and a failing introspection
call. -/
theorem C9_cli_exit_behavior_witness :
    cliMain [] sampleWorld = Except.ok CliOutcome.usage ∧
    cliMain ["interface.xml"] sampleWorld =
      Except.error "No such file or directory" ∧
    cliMain ["--session", "not a name", "/good/path"] sampleWorld =
      Except.error "invalid bus name" ∧
    cliMain ["--session", "org.good.Service", "bad path"] sampleWorld =
      Except.error "invalid object path" ∧
    cliMain ["--session", "org.good.Service", "/good/path"] sampleWorld =
      Except.error "protocol error" :=
  ⟨(C9_cli_exit_behavior sampleWorld).1,
   (C9_cli_exit_behavior sampleWorld).2.1 "interface.xml"
     "No such file or directory" (by decide) (by decide) (by decide) rfl,
   (C9_cli_exit_behavior sampleWorld).2.2.1 "not a name" "/good/path"
     "invalid bus name" rfl rfl,
   (C9_cli_exit_behavior sampleWorld).2.2.2.1 "org.good.Service" "bad path"
     "invalid object path" "org.good.Service" rfl rfl rfl,
   (C9_cli_exit_behavior sampleWorld).2.2.2.2 "org.good.Service" "/good/path"
     "protocol error" "org.good.Service" "/good/path" rfl rfl rfl rfl⟩

end Zbus
